import Mathlib

/-!
Verification of the cardiac-valve geometry generator
(`examples/cardiac_valve/generate_valve_geometry.py`) and its
reader/property-calculator counterpart
(`examples/cardiac_valve/visualize_geometry.py`).

Modelling conventions:
* Python `int` index values become `ℤ` inside spring/beam records (the
  file readers parse them with `int(...)`), `ℕ` where they are loop
  counters or list positions.
* Python `float` material constants (`5.0e2`, `1.0e-2`, ...) are exact
  short decimals; they are modelled as `ℚ`.
* The floating-point evaluation of `cos`/`sin` has no exact shallow
  embedding, so the assembled model is parametric in a position function
  `pos : ℕ → ℕ → ℚ × ℚ` (leaflet index, point index); every double is a
  rational, so every run of the script is an instance of this
  parametrisation.  The *mathematical* curve formula of the source
  (lines 94-107) is embedded separately over `ℝ` as `vertexPosArc` /
  `vertexPos` and is the subject of the geometric claims.
* `severity_params[severity]` raising `KeyError` is modelled as
  `GenError.unknownSeverity`; the `ZeroDivisionError` raised by
  `t = i / (n_points_per_leaflet - 1)` when `n_points_per_leaflet = 1`
  is modelled as `GenError.invalidResolution`.  The guard is placed
  exactly where the source divides: it fires only if the inner loop
  body runs at all (i.e. `n ≥ 1`), hence only at `n = 1`.
* The three text files are modelled at token level (`Tok`): the
  whitespace/newline layer of the grammar is trivially invertible and
  carries no information; integers are written exactly, reals are
  written in `%e` notation, i.e. rounded to a 7-significant-digit
  mantissa and a decimal exponent (`formatSci`), and parsed back as the
  exact value of that notation (`sciVal`).
-/

namespace CardiacValve

/-- Material/geometry parameters for one disease severity
(`severity_params` values, generate_valve_geometry.py lines 47-72). -/
structure SeverityProfile where
  spring_stiffness : ℚ
  beam_rigidity : ℚ
  leaflet_length_factor : ℚ
  mobility : ℚ
  deriving DecidableEq, Repr

/-- The severity table, `severity_params`, keyed by the Python dict key.
An unrecognised key raises `KeyError` in the source; here the lookup
returns `none`. -/
def severity_params (severity : String) : Option SeverityProfile :=
  if severity = "healthy" then
    some ⟨5.0e2, 1.0e-2, 1.0, 1.0⟩
  else if severity = "mild" then
    some ⟨8.0e2, 2.0e-2, 0.95, 0.9⟩
  else if severity = "moderate" then
    some ⟨1.5e3, 5.0e-2, 0.85, 0.7⟩
  else if severity = "severe" then
    some ⟨3.0e3, 1.0e-1, 0.7, 0.4⟩
  else
    none

/-- A spring record `[idx1, idx2, stiffness, damping]`
(generate_valve_geometry.py lines 118-122, 143-147). -/
abbrev Spring := ℤ × ℤ × ℚ × ℚ

/-- A beam record `[idx1, idx2, idx3, bend_rigidity]`
(generate_valve_geometry.py lines 130-134). -/
abbrev Beam := ℤ × ℤ × ℤ × ℚ

/-- The quadruple returned by `generate_aortic_valve`
(vertices, springs, beams, params); positions are `α` so the same
topology can carry exact-rational (serialisation) or exact-real
(geometry) coordinates. -/
structure ValveModel (α : Type) where
  vertices : List α
  springs : List Spring
  beams : List Beam
  params : SeverityProfile
  deriving DecidableEq

/-- Failure modes of `generate_aortic_valve`: `KeyError` on severity
lookup, `ZeroDivisionError` on `i / (n_points_per_leaflet - 1)`. -/
inductive GenError
  | unknownSeverity
  | invalidResolution
  deriving DecidableEq, Repr

/-- Number of leaflets, `n_leaflets = 3` (line 82). -/
def n_leaflets : ℕ := 3

/-- The vertex list: for each leaflet (outer loop, line 84) append the
`n` points of that leaflet in parameter order (inner loop, line 93). -/
def genVertices {α : Type} (pos : ℕ → ℕ → α) (n : ℕ) : List α :=
  (List.range n_leaflets).flatMap fun leaflet_idx =>
    (List.range n).map fun i => pos leaflet_idx i

/-- Longitudinal springs (lines 113-122): for each leaflet, connect
`(base+i, base+i+1)` for `i = 0 .. n-2`, stiffness
`params['spring_stiffness']`, damping `0`. -/
def longitudinalSprings (stiffness : ℚ) (n : ℕ) : List Spring :=
  (List.range n_leaflets).flatMap fun leaflet_idx =>
    (List.range (n - 1)).map fun i =>
      ((leaflet_idx * n + i : ℕ), ((leaflet_idx * n + i + 1 : ℕ) : ℤ),
        stiffness, (0 : ℚ))

/-- Beam elements (lines 125-134): for each leaflet, triples
`(base+i, base+i+1, base+i+2)` for `i = 0 .. n-3`. -/
def beamElements (rigidity : ℚ) (n : ℕ) : List Beam :=
  (List.range n_leaflets).flatMap fun leaflet_idx =>
    (List.range (n - 2)).map fun i =>
      ((leaflet_idx * n + i : ℕ), ((leaflet_idx * n + i + 1 : ℕ) : ℤ),
        ((leaflet_idx * n + i + 2 : ℕ) : ℤ), rigidity)

/-- The `skip` of the cross-spring loop: `max(1, n // 8)` (line 141). -/
def crossSkip (n : ℕ) : ℕ := max 1 (n / 8)

/-- Number of iterations of Python `range(0, stop, skip)`:
`⌈stop / skip⌉` (with ℕ-truncated `stop`, matching the empty range for
non-positive stops). -/
def stepCount (stop skip : ℕ) : ℕ := (stop + skip - 1) / skip

/-- Cross springs (lines 137-147): for each leaflet,
`for i in range(0, n - skip - 1, skip)` connect `(base+i, base+i+skip)`
with stiffness `params['spring_stiffness'] * 0.5`, damping `0`. -/
def crossSprings (stiffness : ℚ) (n : ℕ) : List Spring :=
  let skip := crossSkip n
  (List.range n_leaflets).flatMap fun leaflet_idx =>
    (List.range (stepCount (n - skip - 1) skip)).map fun m =>
      ((leaflet_idx * n + m * skip : ℕ),
        ((leaflet_idx * n + m * skip + skip : ℕ) : ℤ),
        stiffness * 0.5, (0 : ℚ))

/-- The successfully assembled model for a given profile: vertex loop
(lines 84-109), longitudinal-spring loop (113-122), beam loop
(125-134), cross-spring loop (137-147); the springs list receives all
longitudinal springs first, then all cross springs. -/
def assembleModel {α : Type} (pos : ℕ → ℕ → α) (n : ℕ)
    (params : SeverityProfile) : ValveModel α :=
  { vertices := genVertices pos n
    springs := longitudinalSprings params.spring_stiffness n ++
      crossSprings params.spring_stiffness n
    beams := beamElements params.beam_rigidity n
    params := params }

/-- `generate_aortic_valve` (lines 19-149): look up the severity
(line 74, `KeyError` → `unknownSeverity`), then run the loops.  The
division `t = i / (n - 1)` (line 94) raises `ZeroDivisionError` iff the
inner loop body executes with `n - 1 = 0`, i.e. iff `n = 1`
(→ `invalidResolution`); for `n = 0` no loop body runs and an empty
model is returned. -/
def generate_aortic_valve {α : Type} (pos : ℕ → ℕ → α) (n : ℕ)
    (severity : String) : Except GenError (ValveModel α) :=
  match severity_params severity with
  | none => .error .unknownSeverity
  | some params =>
      if n = 1 then .error .invalidResolution
      else .ok (assembleModel pos n params)

/-! ## Exact-real curve formula (lines 86-107)

The source computes, for leaflet `leaflet_idx` and point `i`:
`theta_center = leaflet_idx * (2π/3)`; `leaflet_arc = (2π/3) * 0.8`
(computed, never used); `t = i / (n-1)`;
`r = annulus_radius + leaflet_length * t` (where `leaflet_length` has
already been scaled by the profile's length factor at line 75);
`curvature = 0.3 * (1 - t²) * mobility`;
`theta = theta_center + curvature * sin(π t)`;
vertex `(r cos theta, r sin theta)`. -/

/-- One leaflet vertex, with the arc-width value `leaflet_arc`
(line 89) lifted to a parameter so that its (non-)influence can be
stated; the source fixes it to `(2π/3) * 0.8`. -/
noncomputable def vertexPosArc (leaflet_arc : ℝ) (annulus_radius
    leaflet_length mobility : ℝ) (n leaflet_idx i : ℕ) : ℝ × ℝ :=
  let theta_center : ℝ := leaflet_idx * (2 * Real.pi / 3)
  let t : ℝ := i / (n - 1)
  let r : ℝ := annulus_radius + leaflet_length * t
  let curvature : ℝ := 0.3 * (1 - t ^ 2) * mobility
  let theta : ℝ := theta_center + curvature * Real.sin (Real.pi * t)
  (r * Real.cos theta, r * Real.sin theta)

/-- One leaflet vertex exactly as in the source, `leaflet_arc`
instantiated to its (unused) source value `(2π/3) * 0.8`. -/
noncomputable def vertexPos (annulus_radius leaflet_length mobility : ℝ)
    (n leaflet_idx i : ℕ) : ℝ × ℝ :=
  vertexPosArc (2 * Real.pi / 3 * 0.8) annulus_radius leaflet_length
    mobility n leaflet_idx i

/-- `generate_aortic_valve` with the source's own position formula: the
severity is looked up (line 74), `leaflet_length` is scaled by the
profile's length factor (line 75), and the vertex loop evaluates
`vertexPos` (lines 93-107) — the exact-real reading of the script. -/
noncomputable def generateGeometry (n : ℕ) (annulus_radius
    leaflet_length : ℝ) (severity : String) :
    Except GenError (ValveModel (ℝ × ℝ)) :=
  match severity_params severity with
  | none => .error .unknownSeverity
  | some p =>
      generate_aortic_valve
        (vertexPos annulus_radius
          (leaflet_length * (p.leaflet_length_factor : ℝ))
          (p.mobility : ℝ) n) n severity

/-- A trivially concrete position function, used to instantiate the
parametric generator at concrete inputs. -/
def pos0 : ℕ → ℕ → ℚ × ℚ := fun _ _ => (0, 0)

/-! ## Serialisation (lines 152-176) and parsing
(visualize_geometry.py lines 25-56)

A file is a token stream: the count line, then the fields of each
record in order.  Integer fields are written exactly; real fields are
written in `%e` notation: a signed 7-significant-digit mantissa
(scaled by `10^6`) and a decimal exponent. -/

/-- One whitespace-delimited token of the interchange files. -/
inductive Tok
  | int (z : ℤ)
  | real (mant : ℤ) (exp : ℤ)
  deriving DecidableEq, Repr

/-- Value denoted by a `%e` numeral `d.dddddd e±XX`:
`mant / 10^6 * 10^exp`. -/
def sciVal (mant exp : ℤ) : ℚ := (mant : ℚ) / 10 ^ 6 * (10 : ℚ) ^ exp

/-- `%e` formatting of a rational: zero stays `0.000000e+00`; otherwise
the exponent is `⌊log₁₀ |q|⌋` and the mantissa is `|q| / 10^exp`
rounded to six fractional digits, with the sign reattached. -/
def formatSci (q : ℚ) : ℤ × ℤ :=
  if q = 0 then (0, 0)
  else
    let e : ℤ := Int.log 10 |q|
    let m : ℤ := round (|q| / (10 : ℚ) ^ e * 10 ^ 6)
    (if q < 0 then -m else m, e)

/-- The value that survives `%e` formatting followed by `float(...)`
parsing: `q` rounded to the precision written. -/
def sciRound (q : ℚ) : ℚ := sciVal (formatSci q).1 (formatSci q).2

/-- Real-field token for `q`, as written by `f"{q:e}"`. -/
def realTok (q : ℚ) : Tok := .real (formatSci q).1 (formatSci q).2

/-- `write_vertex_file` (lines 152-157): the count, then `x`, `y` per
vertex, both `%e`-formatted. -/
def write_vertex_file (vertices : List (ℚ × ℚ)) : List Tok :=
  .int vertices.length ::
    vertices.flatMap fun v => [realTok v.1, realTok v.2]

/-- `write_spring_file` (lines 161-166): the count, then
`idx1 idx2 stiffness damping` per spring (indices `%6d`, reals `%e`). -/
def write_spring_file (springs : List Spring) : List Tok :=
  .int springs.length ::
    springs.flatMap fun s => [.int s.1, .int s.2.1, realTok s.2.2.1,
      realTok s.2.2.2]

/-- `write_beam_file` (lines 170-175): the count, then
`idx1 idx2 idx3 rigidity` per beam. -/
def write_beam_file (beams : List Beam) : List Tok :=
  .int beams.length ::
    beams.flatMap fun b => [.int b.1, .int b.2.1, .int b.2.2.1,
      realTok b.2.2.2]

/-- The record loop of `read_vertex_file` (visualize_geometry.py
lines 30-33): read exactly `n` lines of two floats. -/
def readVertexRecords : ℕ → List Tok → Option (List (ℚ × ℚ))
  | 0, _ => some []
  | k + 1, .real m1 e1 :: .real m2 e2 :: rest =>
      (readVertexRecords k rest).map fun l => (sciVal m1 e1, sciVal m2 e2) :: l
  | _ + 1, _ => none

/-- `read_vertex_file` (lines 25-34): parse the count, then that many
records; `none` models the reader raising on malformed input. -/
def read_vertex_file (toks : List Tok) : Option (List (ℚ × ℚ)) :=
  match toks with
  | .int z :: rest => readVertexRecords z.toNat rest
  | _ => none

/-- The record loop of `read_spring_file` (lines 41-44):
`[int, int, float, float]` per line. -/
def readSpringRecords : ℕ → List Tok → Option (List Spring)
  | 0, _ => some []
  | k + 1, .int i :: .int j :: .real m1 e1 :: .real m2 e2 :: rest =>
      (readSpringRecords k rest).map fun l =>
        (i, j, sciVal m1 e1, sciVal m2 e2) :: l
  | _ + 1, _ => none

/-- `read_spring_file` (lines 37-45). -/
def read_spring_file (toks : List Tok) : Option (List Spring) :=
  match toks with
  | .int z :: rest => readSpringRecords z.toNat rest
  | _ => none

/-- The record loop of `read_beam_file` (lines 52-55):
`[int, int, int, float]` per line. -/
def readBeamRecords : ℕ → List Tok → Option (List Beam)
  | 0, _ => some []
  | k + 1, .int i :: .int j :: .int l :: .real m1 e1 :: rest =>
      (readBeamRecords k rest).map fun bs =>
        (i, j, l, sciVal m1 e1) :: bs
  | _ + 1, _ => none

/-- `read_beam_file` (lines 48-56). -/
def read_beam_file (toks : List Tok) : Option (List Beam) :=
  match toks with
  | .int z :: rest => readBeamRecords z.toNat rest
  | _ => none

/-! ## Geometric property calculator
(`calculate_geometric_properties`, visualize_geometry.py lines 59-96)

`scipy.spatial.ConvexHull` is an external library; it is modelled as a
parameter `hull_area` returning `none` when hull construction raises
(the source's bare `except`), in which case the circle-area fallback
`π * min_radius²` is used.  `np.min`/`np.max` of an empty array raise
`ValueError`; `np.mean` of an empty array only warns and yields `NaN`.
Hence an empty vertex array fails at `np.min(radii)` and an empty
spring array fails at `np.max(springs[:, 2])`. -/

/-- Failure modes of `calculate_geometric_properties`: `ValueError`
from a zero-size reduction over the radii, resp. over the stiffness
column. -/
inductive CalcError
  | emptyVertexReduction
  | emptyStiffnessReduction
  deriving DecidableEq, Repr

/-- The `properties` dict built at lines 84-94. -/
structure GeomProps where
  center : ℚ × ℚ
  min_radius : ℝ
  max_radius : ℝ
  radial_extent : ℝ
  orifice_area : ℝ
  avg_stiffness : ℚ
  max_stiffness : ℚ
  n_vertices : ℕ
  n_springs : ℕ

/-- Stiffness column of a spring record, `s[2]`. -/
def stiffnessOf (s : Spring) : ℚ := s.2.2.1

/-- `calculate_geometric_properties(vertices, springs)`
(lines 59-96). -/
noncomputable def calculate_geometric_properties
    (hull_area : List (ℚ × ℚ) → Option ℝ) (vertices : List (ℚ × ℚ))
    (springs : List Spring) : Except CalcError GeomProps :=
  match vertices, springs with
  | [], _ => .error .emptyVertexReduction
  | _ :: _, [] => .error .emptyStiffnessReduction
  | v :: vs, s :: ss =>
      let all := v :: vs
      let cx : ℚ := (all.map Prod.fst).sum / all.length
      let cy : ℚ := (all.map Prod.snd).sum / all.length
      let radius : ℚ × ℚ → ℝ := fun p =>
        Real.sqrt (((p.1 : ℝ) - (cx : ℝ)) ^ 2 + ((p.2 : ℝ) - (cy : ℝ)) ^ 2)
      let min_radius : ℝ := (vs.map radius).foldl min (radius v)
      let max_radius : ℝ := (vs.map radius).foldl max (radius v)
      let orifice_area : ℝ :=
        match hull_area all with
        | some a => a
        | none => Real.pi * min_radius ^ 2
      .ok
        { center := (cx, cy)
          min_radius := min_radius
          max_radius := max_radius
          radial_extent := max_radius - min_radius
          orifice_area := orifice_area
          avg_stiffness :=
            ((s :: ss).map stiffnessOf).sum / (s :: ss).length
          max_stiffness := (ss.map stiffnessOf).foldl max (stiffnessOf s)
          n_vertices := all.length
          n_springs := (s :: ss).length }

/-! ## Helper lemmas -/

/-- `Int.log 10` agrees with any exponent sandwiched by powers of 10. -/
lemma int_log_eq {v : ℚ} {e : ℤ} (hv : 0 < v) (h1 : (10:ℚ) ^ e ≤ v)
    (h2 : v < (10:ℚ) ^ (e + 1)) : Int.log 10 v = e := by
  have h1' : ((10:ℕ):ℚ) ^ e ≤ v := by exact_mod_cast h1
  have h2' : v < ((10:ℕ):ℚ) ^ (e + 1) := by exact_mod_cast h2
  have a := (Int.zpow_le_iff_le_log (by norm_num) hv).mp h1'
  have b := (Int.lt_zpow_iff_log_lt (by norm_num) hv).mp h2'
  omega

/-- A positive rational whose 7-significant-digit mantissa is exact
survives `%e` formatting unchanged. -/
lemma sciRound_exact {q : ℚ} {e m : ℤ} (hq : 0 < q) (h1 : (10:ℚ) ^ e ≤ q)
    (h2 : q < (10:ℚ) ^ (e + 1)) (hm : (m : ℚ) = q / (10:ℚ) ^ e * 10 ^ 6) :
    sciRound q = q := by
  have he : Int.log 10 q = e := int_log_eq hq h1 h2
  have hne : q ≠ 0 := ne_of_gt hq
  have hnlt : ¬ q < 0 := not_lt.mpr (le_of_lt hq)
  unfold sciRound formatSci sciVal
  rw [if_neg hne]
  simp only [abs_of_pos hq, he, if_neg hnlt]
  rw [← hm, round_intCast, hm]
  have h10 : ((10:ℚ)) ^ e ≠ 0 := zpow_ne_zero e (by norm_num)
  field_simp
  ring

lemma sciRound_zero : sciRound 0 = 0 := by
  simp [sciRound, formatSci, sciVal]

/-- Every stiffness, damping and rigidity value a generated model can
contain is written exactly by `%e` formatting. -/
lemma sciRound_material {q : ℚ}
    (h : q = 5.0e2 ∨ q = 8.0e2 ∨ q = 1.5e3 ∨ q = 3.0e3 ∨ q = 2.5e2 ∨
      q = 4.0e2 ∨ q = 7.5e2 ∨ q = 1.0e-2 ∨ q = 2.0e-2 ∨ q = 5.0e-2 ∨
      q = 1.0e-1 ∨ q = 0) : sciRound q = q := by
  rcases h with rfl|rfl|rfl|rfl|rfl|rfl|rfl|rfl|rfl|rfl|rfl|rfl
  · exact sciRound_exact (e := 2) (m := 5000000)
      (by norm_num) (by norm_num) (by norm_num) (by norm_num)
  · exact sciRound_exact (e := 2) (m := 8000000)
      (by norm_num) (by norm_num) (by norm_num) (by norm_num)
  · exact sciRound_exact (e := 3) (m := 1500000)
      (by norm_num) (by norm_num) (by norm_num) (by norm_num)
  · exact sciRound_exact (e := 3) (m := 3000000)
      (by norm_num) (by norm_num) (by norm_num) (by norm_num)
  · exact sciRound_exact (e := 2) (m := 2500000)
      (by norm_num) (by norm_num) (by norm_num) (by norm_num)
  · exact sciRound_exact (e := 2) (m := 4000000)
      (by norm_num) (by norm_num) (by norm_num) (by norm_num)
  · exact sciRound_exact (e := 2) (m := 7500000)
      (by norm_num) (by norm_num) (by norm_num) (by norm_num)
  · exact sciRound_exact (e := -2) (m := 1000000)
      (by norm_num) (by norm_num) (by norm_num) (by norm_num)
  · exact sciRound_exact (e := -2) (m := 2000000)
      (by norm_num) (by norm_num) (by norm_num) (by norm_num)
  · exact sciRound_exact (e := -2) (m := 5000000)
      (by norm_num) (by norm_num) (by norm_num) (by norm_num)
  · exact sciRound_exact (e := -1) (m := 1000000)
      (by norm_num) (by norm_num) (by norm_num) (by norm_num)
  · exact sciRound_zero

/-- The severity lookup yields one of the four table rows. -/
lemma profile_cases {s : String} {p : SeverityProfile}
    (hsev : severity_params s = some p) :
    p = ⟨5.0e2, 1.0e-2, 1.0, 1.0⟩ ∨ p = ⟨8.0e2, 2.0e-2, 0.95, 0.9⟩ ∨
    p = ⟨1.5e3, 5.0e-2, 0.85, 0.7⟩ ∨ p = ⟨3.0e3, 1.0e-1, 0.7, 0.4⟩ := by
  unfold severity_params at hsev
  split_ifs at hsev <;> simp_all

/-- Reduction of a successful `generate_aortic_valve` run. -/
lemma generate_ok {α : Type} {pos : ℕ → ℕ → α} {n : ℕ} {severity : String}
    {p : SeverityProfile} (hsev : severity_params severity = some p)
    (hn : n ≠ 1) :
    generate_aortic_valve pos n severity = .ok (assembleModel pos n p) := by
  simp only [generate_aortic_valve, hsev]
  rw [if_neg hn]

/-- A failed severity lookup aborts the generator. -/
lemma generate_unknown {severity : String}
    (hsev : severity_params severity = none) {α : Type}
    (pos : ℕ → ℕ → α) (n : ℕ) :
    generate_aortic_valve pos n severity = .error .unknownSeverity := by
  simp only [generate_aortic_valve, hsev]

/-- Unfolding of the three-leaflet loop. -/
lemma range3_flatMap {β : Type} (f : ℕ → List β) :
    (List.range 3).flatMap f = f 0 ++ (f 1 ++ (f 2 ++ [])) := rfl

lemma genVertices_length {α : Type} (pos : ℕ → ℕ → α) (n : ℕ) :
    (genVertices pos n).length = 3 * n := by
  simp only [genVertices, n_leaflets, range3_flatMap, List.length_append,
    List.length_map, List.length_range, List.length_nil]
  ring

/-- Vertex `i` of leaflet `k` sits at global index `k * n + i`. -/
lemma genVertices_getElem? {α : Type} (pos : ℕ → ℕ → α) {n k i : ℕ}
    (hk : k < 3) (hi : i < n) :
    (genVertices pos n)[k * n + i]? = some (pos k i) := by
  have hmap : ∀ j : ℕ, ((List.range n).map (pos j))[i]? = some (pos j i) := by
    intro j
    simp [List.getElem?_map, List.getElem?_range hi]
  have hlen : ∀ j : ℕ, ((List.range n).map (pos j)).length = n := by simp
  rw [genVertices, n_leaflets, range3_flatMap]
  interval_cases k
  · rw [List.getElem?_append_left (by simp only [List.length_map, List.length_range, List.length_append, List.length_nil]; omega)]
    simpa using hmap 0
  · rw [List.getElem?_append_right (by simp only [List.length_map, List.length_range, List.length_append, List.length_nil]; omega),
      List.getElem?_append_left (by simp only [List.length_map, List.length_range, List.length_append, List.length_nil]; omega)]
    have : 1 * n + i - n = i := by omega
    rw [hlen 0, this]
    exact hmap 1
  · rw [List.getElem?_append_right (by simp only [List.length_map, List.length_range, List.length_append, List.length_nil]; omega),
      List.getElem?_append_right (by simp only [List.length_map, List.length_range, List.length_append, List.length_nil]; omega)]
    rw [hlen 0, hlen 1]
    have : 2 * n + i - n - n = i := by omega
    rw [this]
    simpa using hmap 2

/-- Iteration count of Python `range(0, stop, skip)`. -/
lemma lt_stepCount_iff {m stop skip : ℕ} (h : 0 < skip) :
    m < stepCount stop skip ↔ m * skip < stop := by
  unfold stepCount
  rw [Nat.lt_iff_add_one_le, Nat.le_div_iff_mul_le h, add_mul, one_mul]
  omega

/-- Shape of a longitudinal spring. -/
lemma mem_longitudinalSprings {st : ℚ} {n : ℕ} {s : Spring}
    (h : s ∈ longitudinalSprings st n) :
    ∃ k i : ℕ, k < 3 ∧ i < n - 1 ∧
      s = (((k * n + i : ℕ) : ℤ), ((k * n + i + 1 : ℕ) : ℤ), st, 0) := by
  simp only [longitudinalSprings, n_leaflets, List.mem_flatMap,
    List.mem_map, List.mem_range] at h
  obtain ⟨k, hk, i, hi, rfl⟩ := h
  exact ⟨k, i, hk, hi, rfl⟩

/-- Shape of a cross spring. -/
lemma mem_crossSprings {st : ℚ} {n : ℕ} {s : Spring}
    (h : s ∈ crossSprings st n) :
    ∃ k m : ℕ, k < 3 ∧ m * crossSkip n < n - crossSkip n - 1 ∧
      s = (((k * n + m * crossSkip n : ℕ) : ℤ),
        ((k * n + m * crossSkip n + crossSkip n : ℕ) : ℤ), st * 0.5, 0) := by
  simp only [crossSprings, n_leaflets, List.mem_flatMap,
    List.mem_map, List.mem_range] at h
  obtain ⟨k, hk, m, hm, rfl⟩ := h
  exact ⟨k, m, hk, (lt_stepCount_iff (by simp [crossSkip])).mp hm, rfl⟩

/-- Shape of a beam element. -/
lemma mem_beamElements {rg : ℚ} {n : ℕ} {b : Beam}
    (h : b ∈ beamElements rg n) :
    ∃ k i : ℕ, k < 3 ∧ i < n - 2 ∧
      b = (((k * n + i : ℕ) : ℤ), ((k * n + i + 1 : ℕ) : ℤ),
        ((k * n + i + 2 : ℕ) : ℤ), rg) := by
  simp only [beamElements, n_leaflets, List.mem_flatMap,
    List.mem_map, List.mem_range] at h
  obtain ⟨k, hk, i, hi, rfl⟩ := h
  exact ⟨k, i, hk, hi, rfl⟩

/-- The vertex-record loop inverts the vertex-record writer, up to the
precision written. -/
lemma readVertexRecords_write (vs : List (ℚ × ℚ)) :
    readVertexRecords vs.length
      (vs.flatMap fun v => [realTok v.1, realTok v.2]) =
      some (vs.map fun v => (sciRound v.1, sciRound v.2)) := by
  induction vs with
  | nil => rfl
  | cons v tl ih =>
      have step : readVertexRecords (v :: tl).length
          ((v :: tl).flatMap fun v => [realTok v.1, realTok v.2]) =
          (readVertexRecords tl.length
            (tl.flatMap fun v => [realTok v.1, realTok v.2])).map
            (fun l => (sciRound v.1, sciRound v.2) :: l) := rfl
      rw [step, ih]
      rfl

/-- `read_vertex_file` inverts `write_vertex_file`, up to the precision
written. -/
lemma read_write_vertex (vs : List (ℚ × ℚ)) :
    read_vertex_file (write_vertex_file vs) =
      some (vs.map fun v => (sciRound v.1, sciRound v.2)) := by
  simp only [write_vertex_file, read_vertex_file, Int.toNat_natCast]
  exact readVertexRecords_write vs

/-- The spring-record loop inverts the spring-record writer. -/
lemma readSpringRecords_write (ss : List Spring) :
    readSpringRecords ss.length
      (ss.flatMap fun s =>
        [.int s.1, .int s.2.1, realTok s.2.2.1, realTok s.2.2.2]) =
      some (ss.map fun s => (s.1, s.2.1, sciRound s.2.2.1,
        sciRound s.2.2.2)) := by
  induction ss with
  | nil => rfl
  | cons s tl ih =>
      have step : readSpringRecords (s :: tl).length
          ((s :: tl).flatMap fun s =>
            [.int s.1, .int s.2.1, realTok s.2.2.1, realTok s.2.2.2]) =
          (readSpringRecords tl.length
            (tl.flatMap fun s =>
              [.int s.1, .int s.2.1, realTok s.2.2.1, realTok s.2.2.2])).map
            (fun l => (s.1, s.2.1, sciRound s.2.2.1, sciRound s.2.2.2) :: l) :=
        rfl
      rw [step, ih]
      rfl

/-- `read_spring_file` inverts `write_spring_file`, exactly on the
integer endpoints and up to the precision written on the reals. -/
lemma read_write_spring (ss : List Spring) :
    read_spring_file (write_spring_file ss) =
      some (ss.map fun s => (s.1, s.2.1, sciRound s.2.2.1,
        sciRound s.2.2.2)) := by
  simp only [write_spring_file, read_spring_file, Int.toNat_natCast]
  exact readSpringRecords_write ss

/-- The beam-record loop inverts the beam-record writer. -/
lemma readBeamRecords_write (bs : List Beam) :
    readBeamRecords bs.length
      (bs.flatMap fun b =>
        [.int b.1, .int b.2.1, .int b.2.2.1, realTok b.2.2.2]) =
      some (bs.map fun b => (b.1, b.2.1, b.2.2.1, sciRound b.2.2.2)) := by
  induction bs with
  | nil => rfl
  | cons b tl ih =>
      have step : readBeamRecords (b :: tl).length
          ((b :: tl).flatMap fun b =>
            [.int b.1, .int b.2.1, .int b.2.2.1, realTok b.2.2.2]) =
          (readBeamRecords tl.length
            (tl.flatMap fun b =>
              [.int b.1, .int b.2.1, .int b.2.2.1, realTok b.2.2.2])).map
            (fun l => (b.1, b.2.1, b.2.2.1, sciRound b.2.2.2) :: l) := rfl
      rw [step, ih]
      rfl

/-- `read_beam_file` inverts `write_beam_file`. -/
lemma read_write_beam (bs : List Beam) :
    read_beam_file (write_beam_file bs) =
      some (bs.map fun b => (b.1, b.2.1, b.2.2.1, sciRound b.2.2.2)) := by
  simp only [write_beam_file, read_beam_file, Int.toNat_natCast]
  exact readBeamRecords_write bs

/-- A left fold of `max` lands on its seed or on a list element. -/
lemma foldl_max_mem (a : ℚ) (l : List ℚ) : l.foldl max a ∈ a :: l := by
  induction l generalizing a with
  | nil => simp
  | cons b tl ih =>
      rw [List.foldl_cons]
      rcases List.mem_cons.mp (ih (max a b)) with h | h
      · rw [h]
        rcases max_choice a b with h' | h' <;> rw [h']
        · exact List.mem_cons_self _ _
        · exact List.mem_cons.mpr (Or.inr (List.mem_cons_self _ _))
      · exact List.mem_cons.mpr (Or.inr (List.mem_cons.mpr (Or.inr h)))

/-- A left fold of `max` bounds its seed and every list element. -/
lemma le_foldl_max (a : ℚ) (l : List ℚ) :
    ∀ x ∈ a :: l, x ≤ l.foldl max a := by
  induction l generalizing a with
  | nil => simp
  | cons b tl ih =>
      intro x hx
      rcases List.mem_cons.mp hx with rfl | hx
      · exact le_trans (le_max_left x b) (ih (max x b) _ (List.mem_cons_self _ _))
      · rcases List.mem_cons.mp hx with rfl | hx
        · exact le_trans (le_max_right a x) (ih (max a x) _ (List.mem_cons_self _ _))
        · exact ih (max a b) x (List.mem_cons.mpr (Or.inr hx))

lemma longitudinalSprings_length (st : ℚ) (n : ℕ) :
    (longitudinalSprings st n).length = 3 * (n - 1) := by
  simp only [longitudinalSprings, n_leaflets, range3_flatMap,
    List.length_append, List.length_map, List.length_range, List.length_nil]
  ring

lemma crossSprings_length (st : ℚ) (n : ℕ) :
    (crossSprings st n).length =
      3 * stepCount (n - crossSkip n - 1) (crossSkip n) := by
  simp only [crossSprings, n_leaflets, range3_flatMap,
    List.length_append, List.length_map, List.length_range, List.length_nil]
  ring

lemma beamElements_length (rg : ℚ) (n : ℕ) :
    (beamElements rg n).length = 3 * (n - 2) := by
  simp only [beamElements, n_leaflets, range3_flatMap,
    List.length_append, List.length_map, List.length_range, List.length_nil]
  ring

/-! ## Claim theorems -/

/-- C2: for every recognized severity and every `pointsPerLeaflet ≥ 2`,
the generator produces exactly `3 * pointsPerLeaflet` vertices, indexed
`0 .. 3*pointsPerLeaflet - 1` in generation order with no gaps or
duplicates (the vertex list has that length, and position `k*n + i`
holds point `i` of leaflet `k`), so the three per-leaflet blocks are
contiguous, equal-sized, with block `k` occupying
`[k*n, (k+1)*n)`. -/
theorem vertex_count_and_block_layout {α : Type} (severity : String)
    (p : SeverityProfile) (hsev : severity_params severity = some p)
    (n : ℕ) (hn : 2 ≤ n) (pos : ℕ → ℕ → α) (m : ValveModel α)
    (hm : generate_aortic_valve pos n severity = .ok m) :
    m.vertices.length = 3 * n ∧
    ∀ k < 3, ∀ i < n, m.vertices[k * n + i]? = some (pos k i) := by
  rw [generate_ok hsev (by omega)] at hm
  obtain rfl : assembleModel pos n p = m := Except.ok.inj hm
  exact ⟨genVertices_length pos n,
    fun k hk i hi => genVertices_getElem? pos hk hi⟩

/-- Witness for C2 at `severity = "healthy"`, `n = 2`. -/
theorem vertex_count_and_block_layout_witness :
    severity_params "healthy" = some ⟨5.0e2, 1.0e-2, 1.0, 1.0⟩ ∧
    (2:ℕ) ≤ 2 ∧
    generate_aortic_valve pos0 2 "healthy" =
      .ok (assembleModel pos0 2 ⟨5.0e2, 1.0e-2, 1.0, 1.0⟩) ∧
    ((assembleModel pos0 2 ⟨5.0e2, 1.0e-2, 1.0, 1.0⟩).vertices.length =
        3 * 2 ∧
      ∀ k < 3, ∀ i < 2,
        (assembleModel pos0 2
          ⟨5.0e2, 1.0e-2, 1.0, 1.0⟩).vertices[k * 2 + i]? =
          some (pos0 k i)) :=
  ⟨rfl, by norm_num, generate_ok rfl (by norm_num),
    vertex_count_and_block_layout "healthy" _ rfl 2 (by norm_num) pos0 _
      (generate_ok rfl (by norm_num))⟩

/-- C3: for every recognized severity and `pointsPerLeaflet ≥ 2`, the
model holds `3*(n-1)` longitudinal springs, `3*max(0, n-2)` beams and
three per-leaflet batches of cross springs counted by the skip rule
`skip = max(1, n // 8)`, `i` stepping by `skip` while
`i + skip < n - 1`; concretely, `healthy`/`n = 4` yields 12 vertices,
9 longitudinal springs, 6 beams and 6 cross springs — 15 springs in
total. -/
theorem spring_beam_counts {α : Type} (severity : String)
    (p : SeverityProfile) (hsev : severity_params severity = some p)
    (n : ℕ) (hn : 2 ≤ n) (pos : ℕ → ℕ → α) (m : ValveModel α)
    (hm : generate_aortic_valve pos n severity = .ok m) :
    m.springs.length =
      3 * (n - 1) + 3 * stepCount (n - crossSkip n - 1) (crossSkip n) ∧
    m.beams.length = 3 * (n - 2) ∧
    (∀ pos4 : ℕ → ℕ → α,
      generate_aortic_valve pos4 4 "healthy" =
        .ok (assembleModel pos4 4 ⟨5.0e2, 1.0e-2, 1.0, 1.0⟩) ∧
      (assembleModel pos4 4 ⟨5.0e2, 1.0e-2, 1.0, 1.0⟩).vertices.length =
        12 ∧
      (longitudinalSprings 5.0e2 4).length = 9 ∧
      (crossSprings 5.0e2 4).length = 6 ∧
      (assembleModel pos4 4 ⟨5.0e2, 1.0e-2, 1.0, 1.0⟩).springs.length =
        15 ∧
      (assembleModel pos4 4 ⟨5.0e2, 1.0e-2, 1.0, 1.0⟩).beams.length =
        6) := by
  rw [generate_ok hsev (by omega)] at hm
  obtain rfl : assembleModel pos n p = m := Except.ok.inj hm
  refine ⟨?_, beamElements_length _ _, ?_⟩
  · show (longitudinalSprings _ _ ++ crossSprings _ _).length = _
    rw [List.length_append, longitudinalSprings_length, crossSprings_length]
  · intro pos4
    refine ⟨generate_ok rfl (by norm_num), ?_, ?_, ?_, ?_, ?_⟩
    · rw [show (assembleModel pos4 4
        (⟨5.0e2, 1.0e-2, 1.0, 1.0⟩ : SeverityProfile)).vertices =
          genVertices pos4 4 from rfl, genVertices_length]
    · rw [longitudinalSprings_length]
    · rw [crossSprings_length]
      decide
    · show (longitudinalSprings _ _ ++ crossSprings _ _).length = _
      rw [List.length_append, longitudinalSprings_length,
        crossSprings_length]
      decide
    · exact beamElements_length _ _

/-- Witness for C3 at `severity = "healthy"`, `n = 4`. -/
theorem spring_beam_counts_witness :
    severity_params "healthy" = some ⟨5.0e2, 1.0e-2, 1.0, 1.0⟩ ∧
    (2:ℕ) ≤ 4 ∧
    generate_aortic_valve pos0 4 "healthy" =
      .ok (assembleModel pos0 4 ⟨5.0e2, 1.0e-2, 1.0, 1.0⟩) ∧
    (assembleModel pos0 4 ⟨5.0e2, 1.0e-2, 1.0, 1.0⟩).springs.length =
      3 * (4 - 1) + 3 * stepCount (4 - crossSkip 4 - 1) (crossSkip 4) :=
  ⟨rfl, by norm_num, generate_ok rfl (by norm_num),
    (spring_beam_counts "healthy" _ rfl 4 (by norm_num) pos0 _
      (generate_ok rfl (by norm_num))).1⟩

/-- C4: for every recognized severity and every `pointsPerLeaflet` from
2 through 128, every spring references two distinct indices and every
beam three consecutive indices, all inside the referencing element's
own leaflet block `[k*n, (k+1)*n)`; nothing is out of range or
cross-leaflet. -/
theorem connectivity_block_invariant {α : Type} (severity : String)
    (p : SeverityProfile) (hsev : severity_params severity = some p)
    (n : ℕ) (hn : 2 ≤ n) (hn' : n ≤ 128) (pos : ℕ → ℕ → α)
    (m : ValveModel α)
    (hm : generate_aortic_valve pos n severity = .ok m) :
    (∀ s ∈ m.springs, s.1 ≠ s.2.1 ∧ ∃ k : ℕ, k < 3 ∧
      ((k * n : ℕ) : ℤ) ≤ s.1 ∧ s.1 < (((k + 1) * n : ℕ) : ℤ) ∧
      ((k * n : ℕ) : ℤ) ≤ s.2.1 ∧ s.2.1 < (((k + 1) * n : ℕ) : ℤ)) ∧
    (∀ b ∈ m.beams, b.2.1 = b.1 + 1 ∧ b.2.2.1 = b.1 + 2 ∧ ∃ k : ℕ, k < 3 ∧
      ((k * n : ℕ) : ℤ) ≤ b.1 ∧ b.2.2.1 < (((k + 1) * n : ℕ) : ℤ)) := by
  rw [generate_ok hsev (by omega)] at hm
  obtain rfl : assembleModel pos n p = m := Except.ok.inj hm
  constructor
  · intro s hs
    rcases List.mem_append.mp hs with h | h
    · obtain ⟨k, i, hk, hi, rfl⟩ := mem_longitudinalSprings h
      interval_cases k
      · exact ⟨by push_cast; omega, 0, by norm_num, by push_cast; omega,
          by push_cast; omega, by push_cast; omega, by push_cast; omega⟩
      · exact ⟨by push_cast; omega, 1, by norm_num, by push_cast; omega,
          by push_cast; omega, by push_cast; omega, by push_cast; omega⟩
      · exact ⟨by push_cast; omega, 2, by norm_num, by push_cast; omega,
          by push_cast; omega, by push_cast; omega, by push_cast; omega⟩
    · obtain ⟨k, mm, hk, hlt, rfl⟩ := mem_crossSprings h
      have hskip : 1 ≤ crossSkip n := le_max_left 1 _
      generalize hj : mm * crossSkip n = j at hlt ⊢
      interval_cases k
      · exact ⟨by push_cast; omega, 0, by norm_num, by push_cast; omega,
          by push_cast; omega, by push_cast; omega, by push_cast; omega⟩
      · exact ⟨by push_cast; omega, 1, by norm_num, by push_cast; omega,
          by push_cast; omega, by push_cast; omega, by push_cast; omega⟩
      · exact ⟨by push_cast; omega, 2, by norm_num, by push_cast; omega,
          by push_cast; omega, by push_cast; omega, by push_cast; omega⟩
  · intro b hb
    obtain ⟨k, i, hk, hi, rfl⟩ := mem_beamElements hb
    interval_cases k
    · exact ⟨by push_cast; ring, by push_cast; ring, 0, by norm_num,
        by push_cast; omega, by push_cast; omega⟩
    · exact ⟨by push_cast; ring, by push_cast; ring, 1, by norm_num,
        by push_cast; omega, by push_cast; omega⟩
    · exact ⟨by push_cast; ring, by push_cast; ring, 2, by norm_num,
        by push_cast; omega, by push_cast; omega⟩

/-- Witness for C4 at `severity = "mild"`, `n = 3`. -/
theorem connectivity_block_invariant_witness :
    severity_params "mild" = some ⟨8.0e2, 2.0e-2, 0.95, 0.9⟩ ∧
    (2:ℕ) ≤ 3 ∧ (3:ℕ) ≤ 128 ∧
    generate_aortic_valve pos0 3 "mild" =
      .ok (assembleModel pos0 3 ⟨8.0e2, 2.0e-2, 0.95, 0.9⟩) ∧
    (∀ s ∈ (assembleModel pos0 3
        (⟨8.0e2, 2.0e-2, 0.95, 0.9⟩ : SeverityProfile)).springs,
      s.1 ≠ s.2.1 ∧ ∃ k : ℕ, k < 3 ∧
      ((k * 3 : ℕ) : ℤ) ≤ s.1 ∧ s.1 < (((k + 1) * 3 : ℕ) : ℤ) ∧
      ((k * 3 : ℕ) : ℤ) ≤ s.2.1 ∧ s.2.1 < (((k + 1) * 3 : ℕ) : ℤ)) :=
  ⟨rfl, by norm_num, by norm_num, generate_ok rfl (by norm_num),
    (connectivity_block_invariant "mild" _ rfl 3 (by norm_num)
      (by norm_num) pos0 _ (generate_ok rfl (by norm_num))).1⟩

/-- C10: in every generated model the spring list is the longitudinal
springs (leaflet order, then chain order) followed by the cross springs
(leaflet order, then skip order): the first `3*(n-1)` entries are
exactly the longitudinal springs, carrying the full stiffness, and the
remainder are exactly the cross springs, carrying half stiffness; the
whole ordering is a function of the looked-up profile and `n` alone. -/
theorem spring_ordering {α : Type} (severity : String)
    (p : SeverityProfile) (hsev : severity_params severity = some p)
    (n : ℕ) (pos : ℕ → ℕ → α) (m : ValveModel α)
    (hm : generate_aortic_valve pos n severity = .ok m) :
    m.springs =
      longitudinalSprings p.spring_stiffness n ++
        crossSprings p.spring_stiffness n ∧
    m.springs.take (3 * (n - 1)) =
      longitudinalSprings p.spring_stiffness n ∧
    m.springs.drop (3 * (n - 1)) = crossSprings p.spring_stiffness n ∧
    (∀ s ∈ m.springs.take (3 * (n - 1)),
      stiffnessOf s = p.spring_stiffness) ∧
    (∀ s ∈ m.springs.drop (3 * (n - 1)),
      stiffnessOf s = p.spring_stiffness * 0.5) := by
  have hne : n ≠ 1 := by
    intro h
    rw [h] at hm
    simp [generate_aortic_valve, hsev] at hm
  rw [generate_ok hsev hne] at hm
  obtain rfl : assembleModel pos n p = m := Except.ok.inj hm
  have hsp : (assembleModel pos n p).springs =
      longitudinalSprings p.spring_stiffness n ++
        crossSprings p.spring_stiffness n := rfl
  have htake : (assembleModel pos n p).springs.take (3 * (n - 1)) =
      longitudinalSprings p.spring_stiffness n := by
    rw [hsp, List.take_left' (longitudinalSprings_length _ _)]
  have hdrop : (assembleModel pos n p).springs.drop (3 * (n - 1)) =
      crossSprings p.spring_stiffness n := by
    rw [hsp, List.drop_left' (longitudinalSprings_length _ _)]
  refine ⟨hsp, htake, hdrop, ?_, ?_⟩
  · intro s hs
    rw [htake] at hs
    obtain ⟨k, i, _, _, rfl⟩ := mem_longitudinalSprings hs
    rfl
  · intro s hs
    rw [hdrop] at hs
    obtain ⟨k, mm, _, _, rfl⟩ := mem_crossSprings hs
    rfl

/-- Witness for C10 at `severity = "severe"`, `n = 4`. -/
theorem spring_ordering_witness :
    severity_params "severe" = some ⟨3.0e3, 1.0e-1, 0.7, 0.4⟩ ∧
    generate_aortic_valve pos0 4 "severe" =
      .ok (assembleModel pos0 4 ⟨3.0e3, 1.0e-1, 0.7, 0.4⟩) ∧
    (assembleModel pos0 4
        (⟨3.0e3, 1.0e-1, 0.7, 0.4⟩ : SeverityProfile)).springs.take
        (3 * (4 - 1)) =
      longitudinalSprings 3.0e3 4 :=
  ⟨rfl, generate_ok rfl (by norm_num),
    (spring_ordering "severe" _ rfl 4 pos0 _
      (generate_ok rfl (by norm_num))).2.1⟩

/-- C6 counterexample: `pointsPerLeaflet = 0` is `< 2`, yet the
generator does not fail — the per-leaflet loop body (and with it the
division `i / (n - 1)`) never runs, and an empty model is returned. -/
theorem resolution_below_two_not_always_error :
    generate_aortic_valve pos0 0 "healthy" =
      .ok (assembleModel pos0 0 ⟨5.0e2, 1.0e-2, 1.0, 1.0⟩) ∧
    (assembleModel pos0 0
      (⟨5.0e2, 1.0e-2, 1.0, 1.0⟩ : SeverityProfile)).vertices = [] :=
  ⟨generate_ok rfl (by norm_num), rfl⟩

/-- C6 amended: of the resolutions below 2, exactly
`pointsPerLeaflet = 1` makes the generator fail (the division
`i / (n - 1)` raises with `n - 1 = 0`, modelled as
`InvalidResolution`), and the failure produces no partial vertex
sequence; `pointsPerLeaflet = 0` instead returns successfully with an
empty vertex sequence. -/
theorem resolution_one_fails {α : Type} (severity : String)
    (p : SeverityProfile) (hsev : severity_params severity = some p)
    (pos : ℕ → ℕ → α) :
    generate_aortic_valve pos 1 severity = .error .invalidResolution ∧
    generate_aortic_valve pos 0 severity = .ok (assembleModel pos 0 p) ∧
    (assembleModel pos 0 p).vertices = [] := by
  refine ⟨?_, generate_ok hsev (by norm_num), ?_⟩
  · simp [generate_aortic_valve, hsev]
  · show genVertices pos 0 = []
    rfl

/-- Witness for the amended C6 at `severity = "healthy"`. -/
theorem resolution_one_fails_witness :
    severity_params "healthy" = some ⟨5.0e2, 1.0e-2, 1.0, 1.0⟩ ∧
    generate_aortic_valve pos0 1 "healthy" =
      .error .invalidResolution :=
  ⟨rfl, (resolution_one_fails "healthy" _ rfl pos0).1⟩

/-- C7: the severity lookup fails (and the generator aborts with
`UnknownSeverity`, producing no partial model) on every label outside
the four recognized ones, and returns the fixed table row for each
recognized label. -/
theorem severity_lookup_contract :
    (∀ s : String,
      s ∉ (["healthy", "mild", "moderate", "severe"] : List String) →
      severity_params s = none ∧
      ∀ (pos : ℕ → ℕ → ℚ × ℚ) (n : ℕ),
        generate_aortic_valve pos n s = .error .unknownSeverity) ∧
    severity_params "healthy" = some ⟨5.0e2, 1.0e-2, 1.0, 1.0⟩ ∧
    severity_params "mild" = some ⟨8.0e2, 2.0e-2, 0.95, 0.9⟩ ∧
    severity_params "moderate" = some ⟨1.5e3, 5.0e-2, 0.85, 0.7⟩ ∧
    severity_params "severe" = some ⟨3.0e3, 1.0e-1, 0.7, 0.4⟩ := by
  refine ⟨?_, rfl, rfl, rfl, rfl⟩
  intro s hs
  simp only [List.mem_cons, List.not_mem_nil, or_false, not_or] at hs
  obtain ⟨h1, h2, h3, h4⟩ := hs
  have hnone : severity_params s = none := by
    unfold severity_params
    rw [if_neg h1, if_neg h2, if_neg h3, if_neg h4]
  exact ⟨hnone, fun pos n => generate_unknown hnone pos n⟩

/-- Witness for C7 at the unrecognized label `"unknown"`. -/
theorem severity_lookup_contract_witness :
    ("unknown" : String) ∉
      (["healthy", "mild", "moderate", "severe"] : List String) ∧
    severity_params "unknown" = none ∧
    generate_aortic_valve pos0 4 "unknown" =
      .error .unknownSeverity := by
  have h : ("unknown" : String) ∉
      (["healthy", "mild", "moderate", "severe"] : List String) := by
    decide
  exact ⟨h, (severity_lookup_contract.1 "unknown" h).1,
    (severity_lookup_contract.1 "unknown" h).2 pos0 4⟩

/-- C1: for every model produced by the generator (any recognized
severity, any `pointsPerLeaflet ≥ 2`, any vertex positions), writing
the three files and re-parsing them with the inverse-grammar readers
reproduces the vertex positions to the precision written (`sciRound`),
and the spring endpoints, stiffness and damping, and the beam endpoints
and rigidity, exactly — the material values of every profile are
written exactly by `%e` formatting. -/
theorem serialization_roundtrip (severity : String) (p : SeverityProfile)
    (hsev : severity_params severity = some p) (n : ℕ) (hn : 2 ≤ n)
    (pos : ℕ → ℕ → ℚ × ℚ) (m : ValveModel (ℚ × ℚ))
    (hm : generate_aortic_valve pos n severity = .ok m) :
    read_vertex_file (write_vertex_file m.vertices) =
      some (m.vertices.map fun v => (sciRound v.1, sciRound v.2)) ∧
    read_spring_file (write_spring_file m.springs) = some m.springs ∧
    read_beam_file (write_beam_file m.beams) = some m.beams := by
  rw [generate_ok hsev (by omega)] at hm
  obtain rfl : assembleModel pos n p = m := Except.ok.inj hm
  refine ⟨read_write_vertex _, ?_, ?_⟩
  · rw [read_write_spring]
    have hfix : ∀ s ∈ (assembleModel pos n p).springs,
        (s.1, s.2.1, sciRound s.2.2.1, sciRound s.2.2.2) = s := by
      intro s hs
      rcases List.mem_append.mp hs with h | h
      · obtain ⟨k, i, _, _, rfl⟩ := mem_longitudinalSprings h
        have h1 : sciRound p.spring_stiffness = p.spring_stiffness := by
          rcases profile_cases hsev with rfl | rfl | rfl | rfl <;>
            exact sciRound_material (by norm_num)
        show (_, _, sciRound p.spring_stiffness, sciRound 0) = _
        rw [h1, sciRound_zero]
      · obtain ⟨k, mm, _, _, rfl⟩ := mem_crossSprings h
        have h1 : sciRound (p.spring_stiffness * 0.5) =
            p.spring_stiffness * 0.5 := by
          rcases profile_cases hsev with rfl | rfl | rfl | rfl <;>
            exact sciRound_material (by norm_num)
        show (_, _, sciRound (p.spring_stiffness * 0.5), sciRound 0) = _
        rw [h1, sciRound_zero]
    rw [List.map_congr_left hfix]
    simp only [List.map_id_fun', id]
  · rw [read_write_beam]
    have hfix : ∀ b ∈ (assembleModel pos n p).beams,
        (b.1, b.2.1, b.2.2.1, sciRound b.2.2.2) = b := by
      intro b hb
      obtain ⟨k, i, _, _, rfl⟩ := mem_beamElements hb
      have h1 : sciRound p.beam_rigidity = p.beam_rigidity := by
        rcases profile_cases hsev with rfl | rfl | rfl | rfl <;>
          exact sciRound_material (by norm_num)
      show (_, _, _, sciRound p.beam_rigidity) = _
      rw [h1]
    rw [List.map_congr_left hfix]
    simp only [List.map_id_fun', id]

/-- Witness for C1 at `severity = "healthy"`, `n = 2`. -/
theorem serialization_roundtrip_witness :
    severity_params "healthy" = some ⟨5.0e2, 1.0e-2, 1.0, 1.0⟩ ∧
    (2:ℕ) ≤ 2 ∧
    generate_aortic_valve pos0 2 "healthy" =
      .ok (assembleModel pos0 2 ⟨5.0e2, 1.0e-2, 1.0, 1.0⟩) ∧
    (read_vertex_file (write_vertex_file
        (assembleModel pos0 2
          (⟨5.0e2, 1.0e-2, 1.0, 1.0⟩ : SeverityProfile)).vertices) =
      some ((assembleModel pos0 2
          (⟨5.0e2, 1.0e-2, 1.0, 1.0⟩ : SeverityProfile)).vertices.map
          fun v => (sciRound v.1, sciRound v.2)) ∧
    read_spring_file (write_spring_file
        (assembleModel pos0 2
          (⟨5.0e2, 1.0e-2, 1.0, 1.0⟩ : SeverityProfile)).springs) =
      some (assembleModel pos0 2
        (⟨5.0e2, 1.0e-2, 1.0, 1.0⟩ : SeverityProfile)).springs ∧
    read_beam_file (write_beam_file
        (assembleModel pos0 2
          (⟨5.0e2, 1.0e-2, 1.0, 1.0⟩ : SeverityProfile)).beams) =
      some (assembleModel pos0 2
        (⟨5.0e2, 1.0e-2, 1.0, 1.0⟩ : SeverityProfile)).beams) :=
  ⟨rfl, by norm_num, generate_ok rfl (by norm_num),
    serialization_roundtrip "healthy" _ rfl 2 (by norm_num) pos0 _
      (generate_ok rfl (by norm_num))⟩

/-- At curve parameter `t = 0` (`i = 0`) the curvature term vanishes
and the vertex sits at radius `annulus_radius`, angle `baseAngle`. -/
lemma vertexPosArc_base (arc R L mob : ℝ) (n k : ℕ) :
    vertexPosArc arc R L mob n k 0 =
      (R * Real.cos ((k : ℝ) * (2 * Real.pi / 3)),
        R * Real.sin ((k : ℝ) * (2 * Real.pi / 3))) := by
  unfold vertexPosArc
  norm_num

/-- `vertexPosArc_base`, specialised to the source's arc value. -/
lemma vertexPos_base (R L mob : ℝ) (n k : ℕ) :
    vertexPos R L mob n k 0 =
      (R * Real.cos ((k : ℝ) * (2 * Real.pi / 3)),
        R * Real.sin ((k : ℝ) * (2 * Real.pi / 3))) :=
  vertexPosArc_base _ R L mob n k

/-- C5: every generated vertex is
`(r cos θ, r sin θ)` with
`θ = baseAngle + 0.3 (1 - t²) mobility · sin(π t)` — a formula in which
the computed 0.8-sector arc-width value does not occur: `vertexPosArc`
is constant in its arc argument, so curve placement is driven solely by
`baseAngle = k · 2π/3` (together with the radius, effective length,
mobility and resolution). -/
theorem arc_width_unused (severity : String) (p : SeverityProfile)
    (hsev : severity_params severity = some p) (n : ℕ) (hn : 2 ≤ n)
    (R L : ℝ) (k i : ℕ) (hk : k < 3) (hi : i < n)
    (m : ValveModel (ℝ × ℝ))
    (hm : generateGeometry n R L severity = .ok m) :
    m.vertices[k * n + i]? =
      some (vertexPos R (L * (p.leaflet_length_factor : ℝ))
        (p.mobility : ℝ) n k i) ∧
    (∀ arc arc' R' L' mob : ℝ, ∀ n' k' i' : ℕ,
      vertexPosArc arc R' L' mob n' k' i' =
        vertexPosArc arc' R' L' mob n' k' i') ∧
    vertexPos R (L * (p.leaflet_length_factor : ℝ)) (p.mobility : ℝ)
        n k i =
      ((R + L * (p.leaflet_length_factor : ℝ) *
          ((i : ℝ) / ((n : ℝ) - 1))) *
        Real.cos ((k : ℝ) * (2 * Real.pi / 3) +
          0.3 * (1 - ((i : ℝ) / ((n : ℝ) - 1)) ^ 2) * (p.mobility : ℝ) *
            Real.sin (Real.pi * ((i : ℝ) / ((n : ℝ) - 1)))),
        (R + L * (p.leaflet_length_factor : ℝ) *
          ((i : ℝ) / ((n : ℝ) - 1))) *
        Real.sin ((k : ℝ) * (2 * Real.pi / 3) +
          0.3 * (1 - ((i : ℝ) / ((n : ℝ) - 1)) ^ 2) * (p.mobility : ℝ) *
            Real.sin (Real.pi * ((i : ℝ) / ((n : ℝ) - 1))))) := by
  refine ⟨?_, fun arc arc' R' L' mob n' k' i' => rfl, rfl⟩
  simp only [generateGeometry, hsev] at hm
  rw [generate_ok hsev (by omega)] at hm
  obtain rfl : assembleModel _ n p = m := Except.ok.inj hm
  exact genVertices_getElem? _ hk hi

/-- Witness for C5 at `severity = "healthy"`, `n = 2`, `k = i = 0`,
`R = 1`, `L = 1.2`. -/
theorem arc_width_unused_witness :
    severity_params "healthy" = some ⟨5.0e2, 1.0e-2, 1.0, 1.0⟩ ∧
    (2:ℕ) ≤ 2 ∧ (0:ℕ) < 3 ∧ (0:ℕ) < 2 ∧
    generateGeometry 2 1 1.2 "healthy" =
      .ok (assembleModel
        (vertexPos 1 (1.2 * ((1.0 : ℚ) : ℝ)) ((1.0 : ℚ) : ℝ) 2) 2
        ⟨5.0e2, 1.0e-2, 1.0, 1.0⟩) ∧
    (∀ arc arc' R' L' mob : ℝ, ∀ n' k' i' : ℕ,
      vertexPosArc arc R' L' mob n' k' i' =
        vertexPosArc arc' R' L' mob n' k' i') := by
  have hm : generateGeometry 2 1 1.2 "healthy" =
      .ok (assembleModel
        (vertexPos 1 (1.2 * ((1.0 : ℚ) : ℝ)) ((1.0 : ℚ) : ℝ) 2) 2
        ⟨5.0e2, 1.0e-2, 1.0, 1.0⟩) := by
    simp only [generateGeometry]
    exact generate_ok rfl (by norm_num)
  exact ⟨rfl, by norm_num, by norm_num, by norm_num, hm,
    (arc_width_unused "healthy" _ rfl 2 (by norm_num) 1 1.2 0 0
      (by norm_num) (by norm_num) _ hm).2.1⟩

/-- C9: the vertex at curve parameter `t = 0` (block-relative index 0)
of every leaflet lies at distance exactly `annulusRadius` from the
origin and at polar angle exactly `baseAngle` — and the angular
deflection term `0.3 (1 - t²) mobility · sin(π t)` vanishes at both
endpoints `t = 0` and `t = 1`. -/
theorem base_vertex_on_annulus (severity : String) (p : SeverityProfile)
    (hsev : severity_params severity = some p) (n : ℕ) (hn : 2 ≤ n)
    (R L : ℝ) (hR : 0 < R) (k : ℕ) (hk : k < 3)
    (m : ValveModel (ℝ × ℝ))
    (hm : generateGeometry n R L severity = .ok m) :
    m.vertices[k * n]? =
      some (R * Real.cos ((k : ℝ) * (2 * Real.pi / 3)),
        R * Real.sin ((k : ℝ) * (2 * Real.pi / 3))) ∧
    Real.sqrt ((R * Real.cos ((k : ℝ) * (2 * Real.pi / 3))) ^ 2 +
      (R * Real.sin ((k : ℝ) * (2 * Real.pi / 3))) ^ 2) = R ∧
    (∀ mob : ℝ,
      0.3 * (1 - (0 : ℝ) ^ 2) * mob * Real.sin (Real.pi * 0) = 0 ∧
      0.3 * (1 - (1 : ℝ) ^ 2) * mob * Real.sin (Real.pi * 1) = 0) := by
  refine ⟨?_, ?_, ?_⟩
  · simp only [generateGeometry, hsev] at hm
    rw [generate_ok hsev (by omega)] at hm
    obtain rfl : assembleModel _ n p = m := Except.ok.inj hm
    have h0 : k * n + 0 = k * n := by omega
    have := genVertices_getElem?
      (vertexPos R (L * (p.leaflet_length_factor : ℝ)) (p.mobility : ℝ) n)
      hk (show 0 < n by omega)
    rw [h0] at this
    show (genVertices (vertexPos R (L * (p.leaflet_length_factor : ℝ))
      (p.mobility : ℝ) n) n)[k * n]? = _
    rw [this, vertexPos_base]
  · have hpy := Real.sin_sq_add_cos_sq ((k : ℝ) * (2 * Real.pi / 3))
    have hsq : (R * Real.cos ((k : ℝ) * (2 * Real.pi / 3))) ^ 2 +
        (R * Real.sin ((k : ℝ) * (2 * Real.pi / 3))) ^ 2 = R ^ 2 := by
      nlinarith [hpy]
    rw [hsq, Real.sqrt_sq hR.le]
  · intro mob
    constructor <;> norm_num [Real.sin_pi]

/-- Witness for C9 at `severity = "healthy"`, `n = 2`, `k = 0`,
`R = 1`, `L = 1.2`. -/
theorem base_vertex_on_annulus_witness :
    severity_params "healthy" = some ⟨5.0e2, 1.0e-2, 1.0, 1.0⟩ ∧
    (2:ℕ) ≤ 2 ∧ (0:ℝ) < 1 ∧ (0:ℕ) < 3 ∧
    Real.sqrt ((1 * Real.cos ((0 : ℕ) * (2 * Real.pi / 3))) ^ 2 +
      (1 * Real.sin ((0 : ℕ) * (2 * Real.pi / 3))) ^ 2) = 1 := by
  have hm : generateGeometry 2 1 1.2 "healthy" =
      .ok (assembleModel
        (vertexPos 1 (1.2 * ((1.0 : ℚ) : ℝ)) ((1.0 : ℚ) : ℝ) 2) 2
        ⟨5.0e2, 1.0e-2, 1.0, 1.0⟩) := by
    simp only [generateGeometry]
    exact generate_ok rfl (by norm_num)
  exact ⟨rfl, by norm_num, by norm_num, by norm_num,
    (base_vertex_on_annulus "healthy" _ rfl 2 (by norm_num) 1 1.2
      (by norm_num) 0 (by norm_num) _ hm).2.1⟩

/-- C8 counterexample: called with a non-empty vertex set and an empty
spring set, `calculate_geometric_properties` fails (the zero-size
`np.max` reduction over `springs[:, 2]` raises `ValueError`) instead of
reporting the stiffness statistics as undefined. -/
theorem stats_empty_springs_failure :
    calculate_geometric_properties (fun _ => none) [(0, 0)] [] =
      .error .emptyStiffnessReduction := rfl

/-- C8 amended: with an empty spring set the property calculator fails
(`ValueError` from the zero-size stiffness reduction) rather than
reporting an undefined value; with a non-empty spring set it succeeds
and `avg_stiffness`/`max_stiffness` are the mean and the maximum of the
springs' stiffness values. -/
theorem stiffness_stats (hull : List (ℚ × ℚ) → Option ℝ) (v : ℚ × ℚ)
    (vs : List (ℚ × ℚ)) (s : Spring) (ss : List Spring) :
    calculate_geometric_properties hull (v :: vs) [] =
      .error .emptyStiffnessReduction ∧
    ∃ props, calculate_geometric_properties hull (v :: vs) (s :: ss) =
        .ok props ∧
      props.avg_stiffness =
        ((s :: ss).map stiffnessOf).sum / ((s :: ss).length : ℚ) ∧
      props.max_stiffness ∈ (s :: ss).map stiffnessOf ∧
      ∀ x ∈ (s :: ss).map stiffnessOf, x ≤ props.max_stiffness := by
  refine ⟨rfl, _, rfl, rfl, ?_, ?_⟩
  · show (ss.map stiffnessOf).foldl max (stiffnessOf s) ∈ _
    rw [List.map_cons]
    exact foldl_max_mem (stiffnessOf s) (ss.map stiffnessOf)
  · intro x hx
    rw [List.map_cons] at hx
    exact le_foldl_max _ _ x hx

end CardiacValve
